import Mathlib

/-!
Verification development for the GeminiMind chat widget
(`src/unnamed/part_000`, `ChatInterface`; `src/components/landing-page.tsx`
holds a voice-less copy of the same submit/request logic).

The component state is the React state of `ChatInterface`:
`messages`, `input`, `isTyping`, `isListening`, `isSpeaking`, plus the two
pieces of platform state the handlers drive: the speech-synthesis utterance
queue (`window.speechSynthesis`) and whether a recognition capture is active
(`recognitionRef`).  The remote model call is represented by its outcome
(`Except String String`: error message or response text) passed to the
continuation, and by the outbound request it constructs.

Platform semantics used (Web Speech API, invoked directly by the source):
`speechSynthesis.speak(u)` APPENDS `u` to the utterance queue; the `end`
event of an utterance fires when that utterance finishes, the platform then
removes it and proceeds to the next queued utterance;
`speechSynthesis.cancel()` empties the queue and stops playback.
-/

/-- One transcript message, `{ role, content }` in the source. -/
structure Turn where
  role : String
  content : String
deriving DecidableEq

/-- One message of the outbound request history: `{ role, parts: [{ text }] }`
in the source (a single text part). -/
structure RequestMessage where
  role : String
  text : String
deriving DecidableEq

/-- The outbound request `runChat` constructs: the `history` given to
`model.startChat` plus the message passed to `chat.sendMessage`. -/
structure OutboundRequest where
  history : List RequestMessage
  message : String
deriving DecidableEq

/-- The `FIXED_PROMPT` template literal (lines 28-31 of
`src/unnamed/part_000`): a leading newline, two paragraph lines, and a
trailing newline. -/
def FIXED_PROMPT : String :=
"\nYou are a supportive and empathetic AI assistant designed to provide mental health support and help users build emotional resilience. Your responses should be caring, non-judgmental, and aimed at promoting emotional well-being. In addition to providing emotional support, you actively track and analyze the user's mood patterns, offering personalized emotional resilience plans and adaptive coping strategies. You provide preemptive recommendations based on emotional triggers and suggest progressive emotional growth challenges to help users strengthen their mental health over time.\nYou offer real-time coping strategies in moments of distress and provide positive reflection through automated journaling. You collaborate with the user to create mental health action plans and adapt your guidance based on what works best for them. Always remind the user that you are an AI, encourage self-care, and suggest professional help when needed.\n"

/-- The fixed fallback text appended on a failed remote call
(line 72 of `src/unnamed/part_000`). -/
def fallbackErrorText : String :=
  "I'm sorry, I encountered an error. Please try again."

/-- The synthetic greeting Turn the transcript is initialised with
(line 35 of `src/unnamed/part_000`). -/
def greetingTurn : Turn :=
  { role := "assistant"
    content := "Hello! I'm Serenity, your AI companion. How can I support you today?" }

/-- The state of `ChatInterface` together with the platform state its
handlers drive. -/
structure ChatState where
  messages : List Turn
  input : String
  isTyping : Bool
  isListening : Bool
  isSpeaking : Bool
  /-- The speech-synthesis utterance queue (texts), front = currently
  spoken. -/
  synthQueue : List String
  /-- Whether a speech-recognition capture is running
  (`recognitionRef.current` started and not stopped). -/
  recognitionActive : Bool
deriving DecidableEq

/-- The initial React state of `ChatInterface` (lines 34-45):
transcript `[greeting]`, empty input, all flags off, no platform
activity. -/
def initialState : ChatState :=
  { messages := [greetingTurn]
    input := ""
    isTyping := false
    isListening := false
    isSpeaking := false
    synthQueue := []
    recognitionActive := false }

/-- The request `runChat prompt` constructs (lines 149-193): `startChat`
with `history = [{ role: "user", parts: [{ text: FIXED_PROMPT }] }]`
(independent of the transcript), then `sendMessage(prompt)`. -/
def runChatRequest (prompt : String) : OutboundRequest :=
  { history := [({ role := "user", text := FIXED_PROMPT } : RequestMessage)]
    message := prompt }

/-- The `speakResponse text` handler (lines 133-140): sets `isSpeaking`
to `true`, builds an utterance whose `onend` clears the flag, and calls
`synth.speak`, which appends the utterance to the platform queue. -/
def speakResponse (s : ChatState) (text : String) : ChatState :=
  { s with isSpeaking := true, synthQueue := s.synthQueue ++ [text] }

/-- The `stopSpeaking` handler (lines 142-147): `synth.cancel()` (the
queue is emptied, playback stops) and `isSpeaking := false`. -/
def stopSpeaking (s : ChatState) : ChatState :=
  { s with isSpeaking := false, synthQueue := [] }

/-- The platform firing the `end` event of the utterance at the front of
the queue: the registered `onend` (line 137) sets `isSpeaking := false`,
and the platform removes the finished utterance. No-op when nothing is
queued. -/
def utteranceEnd (s : ChatState) : ChatState :=
  match s.synthQueue with
  | [] => s
  | _ :: rest => { s with isSpeaking := false, synthQueue := rest }

/-- The JavaScript `String.prototype.trim` used by the source's blank
check (`!input.trim()`): strips leading and trailing whitespace
characters. Defined structurally so the kernel can evaluate it. -/
def jsTrim (s : String) : String :=
  String.mk (((s.data.dropWhile Char.isWhitespace).reverse.dropWhile Char.isWhitespace).reverse)

/-- The synchronous prefix of `handleSubmit` (lines 56-64) up to issuing
the remote call: reject blank input (`!input.trim()`), otherwise append
the user Turn with the RAW input, clear the input field, set `isTyping`,
and issue `runChat(input)` on the input captured BEFORE the clear.
Returns the new state and the issued request (`none` when rejected). -/
def submitStart (s : ChatState) : ChatState × Option OutboundRequest :=
  if jsTrim s.input = "" then (s, none)
  else
    ({ s with
        messages := s.messages ++ [({ role := "user", content := s.input } : Turn)]
        input := ""
        isTyping := true },
      some (runChatRequest s.input))

/-- The continuation of `handleSubmit` after the awaited remote call
(lines 65-76): on success append the assistant Turn and forward the
response to `speakResponse`; on any caught error append the fixed
fallback Turn; the `finally` clears `isTyping` on both paths. -/
def submitFinish (s : ChatState) (result : Except String String) : ChatState :=
  match result with
  | .ok response =>
      let s1 := { s with messages := s.messages ++ [({ role := "assistant", content := response } : Turn)] }
      let s2 := speakResponse s1 response
      { s2 with isTyping := false }
  | .error _ =>
      let s1 := { s with messages := s.messages ++ [({ role := "assistant", content := fallbackErrorText } : Turn)] }
      { s1 with isTyping := false }

/-- The whole `handleSubmit` run (lines 56-77), given the outcome of the
remote call: the synchronous prefix followed by the continuation. The
`try/catch` makes the handler total — an `Except.error` outcome is
converted to the fallback Turn, never re-thrown. Also returns the one
request issued (`none` when the input was blank). -/
def handleSubmit (s : ChatState) (result : Except String String) :
    ChatState × Option OutboundRequest :=
  if jsTrim s.input = "" then (s, none)
  else (submitFinish (submitStart s).1 result, some (runChatRequest s.input))

/-- The `startListening` handler (lines 87-118): sets `isListening`,
creates a recognition object (continuous, interim results), registers the
`onresult`/`onerror` handlers and starts the capture. Animation calls are
not modelled. -/
def startListening (s : ChatState) : ChatState :=
  { s with isListening := true, recognitionActive := true }

/-- The `stopListening` handler (lines 120-131): clears `isListening` and
calls `recognition.stop()`, ending the capture. -/
def stopListening (s : ChatState) : ChatState :=
  { s with isListening := false, recognitionActive := false }

/-- The `onresult` handler (lines 105-110): joins the transcripts of ALL
results carried by the event with `''` and REPLACES the input field with
the joined string (`setInput(transcript)`). With continuous interim
results the platform re-delivers the updated result list each event. -/
def onRecognitionResult (s : ChatState) (results : List String) : ChatState :=
  { s with input := String.join results }

/-- The `onerror` handler (lines 112-115): logs and calls
`stopListening`. -/
def onRecognitionError (s : ChatState) : ChatState :=
  stopListening s

/-- The speak-button click (lines 504-508 of `src/unnamed/part_000`):
`isSpeaking ? stopSpeaking : () => speakResponse(messages[messages.length - 1].content)`.
The source indexes the last element unconditionally; the transcript is
never empty in a reachable state (see the greeting invariant), so the
empty case is modelled as a no-op. -/
def replayClick (s : ChatState) : ChatState :=
  if s.isSpeaking then stopSpeaking s
  else
    match s.messages.getLast? with
    | some m => speakResponse s m.content
    | none => s

/-- Modelled from the spec: "the last assistant Turn of the transcript",
the comparison point for the replay control — the source has no such
selector, it indexes `messages[messages.length - 1]`. -/
def lastAssistantTurn (ts : List Turn) : Option Turn :=
  (ts.filter (fun t => t.role == "assistant")).getLast?

/-- The UI events that drive the component, for reachability statements.
A `submitFinishEv` is the completion callback of an in-flight request, so
it only acts when `isTyping` is set (the flag is set exactly while a
request is in flight). -/
inductive Event where
  | setInput (t : String)
  | submitStartEv
  | submitFinishEv (result : Except String String)
  | startListenEv
  | stopListenEv
  | recognitionResultEv (results : List String)
  | recognitionErrorEv
  | replayClickEv
  | utteranceEndEv

/-- One event step of the component. -/
def step (s : ChatState) (e : Event) : ChatState :=
  match e with
  | .setInput t => { s with input := t }
  | .submitStartEv => (submitStart s).1
  | .submitFinishEv r => if s.isTyping then submitFinish s r else s
  | .startListenEv => startListening s
  | .stopListenEv => stopListening s
  | .recognitionResultEv rs => onRecognitionResult s rs
  | .recognitionErrorEv => onRecognitionError s
  | .replayClickEv => replayClick s
  | .utteranceEndEv => utteranceEnd s

/-- The requests issued by one event step. -/
def stepRequests (s : ChatState) (e : Event) : List OutboundRequest :=
  match e with
  | .submitStartEv => ((submitStart s).2).toList
  | _ => []

/-- Run a list of events from a state. -/
def run (s : ChatState) : List Event → ChatState
  | [] => s
  | e :: es => run (step s e) es

/-- All requests issued while running a list of events from a state. -/
def runRequests (s : ChatState) : List Event → List OutboundRequest
  | [] => []
  | e :: es => stepRequests s e ++ runRequests (step s e) es

/-- C1: for every input that is non-empty after trimming, when
`awaiting_response` (`isTyping`) is false before the call, `handleSubmit`
first appends exactly one user Turn, then exactly one assistant Turn on
success or exactly one fallback-error Turn on failure — the transcript
grows by exactly two Turns either way — and `isTyping` is false again
after the handler completes. -/
theorem submit_appends_user_then_assistant (s : ChatState)
    (result : Except String String)
    (h : jsTrim s.input ≠ "") (_h0 : s.isTyping = false) :
    (submitStart s).1.messages
      = s.messages ++ [({ role := "user", content := s.input } : Turn)] ∧
    (handleSubmit s result).1.messages
      = s.messages ++ [({ role := "user", content := s.input } : Turn),
          ({ role := "assistant"
             content := match result with
               | .ok r => r
               | .error _ => fallbackErrorText } : Turn)] ∧
    (handleSubmit s result).1.messages.length = s.messages.length + 2 ∧
    (handleSubmit s result).1.isTyping = false := by
  cases result <;>
    simp [handleSubmit, submitStart, submitFinish, speakResponse, h]

theorem submit_appends_user_then_assistant_witness :
    jsTrim ({ initialState with input := "hello" } : ChatState).input ≠ "" ∧
    ({ initialState with input := "hello" } : ChatState).isTyping = false ∧
    ((handleSubmit { initialState with input := "hello" }
        (Except.ok "resp")).1.messages
      = [greetingTurn, ({ role := "user", content := "hello" } : Turn),
          ({ role := "assistant", content := "resp" } : Turn)] ∧
     (handleSubmit { initialState with input := "hello" }
        (Except.ok "resp")).1.isTyping = false) := by
  refine ⟨by decide, rfl, ?_, ?_⟩
  · have h := submit_appends_user_then_assistant
      { initialState with input := "hello" } (Except.ok "resp")
      (by decide) rfl
    simpa [initialState] using h.2.1
  · exact (submit_appends_user_then_assistant
      { initialState with input := "hello" } (Except.ok "resp")
      (by decide) rfl).2.2.2

/-- C2: every accepted `submit` call issues a request whose prior context
is exactly the one fixed system-instruction message plus the single
latest user message, and the request is unchanged under replacing the
transcript by any other transcript — earlier Turns never leak into later
requests. -/
theorem request_context_is_fixed_instruction (s : ChatState)
    (ms : List Turn) (result : Except String String)
    (h : jsTrim s.input ≠ "") :
    (handleSubmit s result).2
      = some { history := [({ role := "user", text := FIXED_PROMPT } : RequestMessage)]
               message := s.input } ∧
    (handleSubmit { s with messages := ms } result).2
      = (handleSubmit s result).2 := by
  constructor
  · simp [handleSubmit, h, runChatRequest]
  · simp [handleSubmit, h]

theorem request_context_is_fixed_instruction_witness :
    jsTrim ({ initialState with input := "later question" } : ChatState).input ≠ "" ∧
    ((handleSubmit { initialState with input := "later question" }
        (Except.ok "r")).2
      = some { history := [({ role := "user", text := FIXED_PROMPT } : RequestMessage)]
               message := "later question" } ∧
     (handleSubmit { { initialState with input := "later question" } with
          messages := [greetingTurn, ({ role := "user", content := "old" } : Turn)] }
        (Except.ok "r")).2
      = (handleSubmit { initialState with input := "later question" }
          (Except.ok "r")).2) :=
  ⟨by decide,
   request_context_is_fixed_instruction
     { initialState with input := "later question" }
     [greetingTurn, ({ role := "user", content := "old" } : Turn)]
     (Except.ok "r") (by decide)⟩

/-- C3: for every non-blank input, an erroring remote call is caught
(`handleSubmit` is a total function of the outcome: the `Except.error`
case is mapped to a state, never re-raised), exactly one request was
issued (no retry), an assistant Turn with the exact fixed fallback text
is appended, and `isTyping` is cleared on the failure path as on the
success path. -/
theorem submit_error_fallback (s : ChatState) (err : String)
    (result : Except String String) (h : jsTrim s.input ≠ "") :
    (handleSubmit s (Except.error err)).1.messages
      = s.messages ++ [({ role := "user", content := s.input } : Turn),
          ({ role := "assistant"
             content := "I'm sorry, I encountered an error. Please try again." } : Turn)] ∧
    (handleSubmit s (Except.error err)).2 = some (runChatRequest s.input) ∧
    (handleSubmit s (Except.error err)).1.isTyping = false ∧
    (handleSubmit s result).1.isTyping = false := by
  refine ⟨?_, ?_, ?_, ?_⟩
  · simp [handleSubmit, submitStart, submitFinish, fallbackErrorText, h]
  · simp [handleSubmit, h]
  · simp [handleSubmit, submitStart, submitFinish, h]
  · cases result <;> simp [handleSubmit, submitStart, submitFinish, speakResponse, h]

theorem submit_error_fallback_witness :
    jsTrim ({ initialState with input := "help" } : ChatState).input ≠ "" ∧
    ((handleSubmit { initialState with input := "help" }
        (Except.error "network down")).1.messages
      = ({ initialState with input := "help" } : ChatState).messages
          ++ [({ role := "user", content := "help" } : Turn),
              ({ role := "assistant"
                 content := "I'm sorry, I encountered an error. Please try again." } : Turn)] ∧
     (handleSubmit { initialState with input := "help" }
        (Except.error "network down")).2 = some (runChatRequest "help") ∧
     (handleSubmit { initialState with input := "help" }
        (Except.error "network down")).1.isTyping = false ∧
     (handleSubmit { initialState with input := "help" }
        (Except.error "boom")).1.isTyping = false) :=
  ⟨by decide,
   submit_error_fallback { initialState with input := "help" }
     "network down" (Except.error "boom") (by decide)⟩

/-- C5: for every input that is empty or whitespace-only, `handleSubmit`
returns the state unchanged and issues no request: transcript, flags and
input field are untouched and no error Turn is produced. -/
theorem submit_empty_noop (s : ChatState) (result : Except String String)
    (h : jsTrim s.input = "") :
    handleSubmit s result = (s, none) := by
  simp [handleSubmit, h]

theorem submit_empty_noop_witness :
    jsTrim ({ initialState with input := "   " } : ChatState).input = "" ∧
    handleSubmit { initialState with input := "   " } (Except.ok "r")
      = ({ initialState with input := "   " }, none) :=
  ⟨by decide,
   submit_empty_noop { initialState with input := "   " } (Except.ok "r")
     (by decide)⟩

/-- C7: each recognition result event REPLACES the whole pending-input
field with the joined transcripts it carries (independently of the prior
input), and in particular after `startListening` and the two interim
results "I feel" then "I feel sad", the input field equals
"I feel sad". -/
theorem interim_result_replaces_input (s : ChatState) (rs : List String) :
    (onRecognitionResult s rs).input = String.join rs ∧
    (onRecognitionResult { s with input := "anything already typed" } rs).input
      = (onRecognitionResult s rs).input ∧
    (onRecognitionResult
        (onRecognitionResult (startListening s) ["I feel"])
        ["I feel sad"]).input = "I feel sad" := by
  refine ⟨rfl, rfl, ?_⟩
  simp [onRecognitionResult, String.join]

/-- C9: every recognition error event runs exactly `stopListening`: the
`listening` flag is forced off, the underlying capture is cancelled, and
nothing of the session is touched — transcript, input, `isTyping` and the
speech side are unchanged, and no retry happens (the capture stays
off). -/
theorem recognition_error_stops_listening (s : ChatState) :
    onRecognitionError s = stopListening s ∧
    (onRecognitionError s).isListening = false ∧
    (onRecognitionError s).recognitionActive = false ∧
    (onRecognitionError s).messages = s.messages ∧
    (onRecognitionError s).input = s.input ∧
    (onRecognitionError s).isTyping = s.isTyping ∧
    (onRecognitionError s).isSpeaking = s.isSpeaking ∧
    (onRecognitionError s).synthQueue = s.synthQueue :=
  ⟨rfl, rfl, rfl, rfl, rfl, rfl, rfl, rfl⟩

/-- C10: when the trimmed input is non-empty, the appended user Turn
carries the RAW (untrimmed) input, and the text sent to the remote
endpoint is the raw input as well — trimming only decides acceptance. -/
theorem submit_uses_raw_input (s : ChatState)
    (result : Except String String) (h : jsTrim s.input ≠ "") :
    (submitStart s).1.messages
      = s.messages ++ [({ role := "user", content := s.input } : Turn)] ∧
    (handleSubmit s result).2 = some (runChatRequest s.input) ∧
    (runChatRequest s.input).message = s.input := by
  refine ⟨?_, ?_, rfl⟩
  · simp [submitStart, h]
  · simp [handleSubmit, h]

theorem submit_uses_raw_input_witness :
    jsTrim ({ initialState with input := "  hi  " } : ChatState).input ≠ "" ∧
    ((submitStart { initialState with input := "  hi  " }).1.messages
      = [greetingTurn, ({ role := "user", content := "  hi  " } : Turn)] ∧
     (handleSubmit { initialState with input := "  hi  " } (Except.ok "r")).2
      = some (runChatRequest "  hi  ") ∧
     (runChatRequest "  hi  ").message = "  hi  ") := by
  refine ⟨by decide, ?_, ?_, ?_⟩
  · have h := (submit_uses_raw_input { initialState with input := "  hi  " }
      (Except.ok "r") (by decide)).1
    simpa [initialState] using h
  · exact (submit_uses_raw_input { initialState with input := "  hi  " }
      (Except.ok "r") (by decide)).2.1
  · exact (submit_uses_raw_input { initialState with input := "  hi  " }
      (Except.ok "r") (by decide)).2.2

/-- C6 counterexample: from the initial state, `speakResponse "Hi there"`
followed by `speakResponse "Second message"` before the first utterance
completes leaves BOTH utterances queued (`speak` appends to the platform
queue; no cancel is issued, so the new call does not interrupt the prior
one), and the first utterance's completion event already sets
`isSpeaking := false` while the second utterance is still pending — after
which the second utterance's completion event sets it false again, so
the flag does not remain true until a single final completion. -/
theorem speak_overlap_counterexample :
    (speakResponse (speakResponse initialState "Hi there") "Second message").synthQueue
      = ["Hi there", "Second message"] ∧
    (speakResponse (speakResponse initialState "Hi there") "Second message").isSpeaking
      = true ∧
    (utteranceEnd
        (speakResponse (speakResponse initialState "Hi there") "Second message")).isSpeaking
      = false ∧
    (utteranceEnd
        (speakResponse (speakResponse initialState "Hi there") "Second message")).synthQueue
      = ["Second message"] ∧
    (utteranceEnd (utteranceEnd
        (speakResponse (speakResponse initialState "Hi there") "Second message"))).isSpeaking
      = false :=
  ⟨rfl, rfl, rfl, rfl, rfl⟩

/-- C6 amended: a `speak` call made while an utterance is in progress
QUEUES the new utterance behind it (no interruption: `speakResponse`
never cancels). The `speaking` flag is true after both calls, but each
utterance's completion event sets it false, so the flag already reads
false after the FIRST completion while the second utterance is still
queued, and the second completion sets it false again. -/
theorem speak_overlap_queues (s : ChatState) (a b : String) :
    (speakResponse (speakResponse s a) b).isSpeaking = true ∧
    (speakResponse (speakResponse s a) b).synthQueue = s.synthQueue ++ [a, b] ∧
    (utteranceEnd (speakResponse (speakResponse s a) b)).isSpeaking = false ∧
    (utteranceEnd (speakResponse (speakResponse s a) b)).synthQueue
      = (s.synthQueue ++ [a, b]).tail := by
  refine ⟨rfl, by simp [speakResponse], ?_, ?_⟩ <;>
    cases hq : s.synthQueue <;> simp [speakResponse, utteranceEnd, hq]

/-- C8 counterexample: in the reachable state where the user has
submitted "hi" and the request is still in flight, the replay control
speaks "hi" — the text of the trailing USER Turn — although the last
assistant Turn of the transcript is the greeting, whose text is not
"hi". -/
theorem replay_last_assistant_counterexample :
    (run initialState [Event.setInput "hi", Event.submitStartEv]).messages.getLast?
      = some ({ role := "user", content := "hi" } : Turn) ∧
    (replayClick (run initialState [Event.setInput "hi", Event.submitStartEv])).synthQueue
      = ["hi"] ∧
    lastAssistantTurn
        (run initialState [Event.setInput "hi", Event.submitStartEv]).messages
      = some greetingTurn ∧
    (greetingTurn.content == "hi") = false := by
  refine ⟨?_, ?_, ?_, ?_⟩ <;> decide

/-- C8 amended: every successful assistant response is forwarded to
`speakResponse` (the response text is enqueued and `speaking` set), and
the replay control speaks the text of the LAST Turn of the transcript —
which is the last assistant Turn exactly when the transcript ends with an
assistant Turn (as it does whenever no request is in flight). -/
theorem response_spoken_and_replay_last_turn (s : ChatState) (r : String)
    (m : Turn) (h : jsTrim s.input ≠ "") (hsp : s.isSpeaking = false)
    (hl : s.messages.getLast? = some m) (hr : m.role = "assistant") :
    (handleSubmit s (Except.ok r)).1.synthQueue = s.synthQueue ++ [r] ∧
    (handleSubmit s (Except.ok r)).1.isSpeaking = true ∧
    (replayClick s).synthQueue = s.synthQueue ++ [m.content] ∧
    (replayClick s).isSpeaking = true ∧
    lastAssistantTurn s.messages = some m := by
  refine ⟨?_, ?_, ?_, ?_, ?_⟩
  · simp [handleSubmit, submitStart, submitFinish, speakResponse, h]
  · simp [handleSubmit, submitStart, submitFinish, speakResponse, h]
  · simp [replayClick, hsp, hl, speakResponse]
  · simp [replayClick, hsp, hl, speakResponse]
  · obtain ⟨l', hl'⟩ := List.getLast?_eq_some_iff.mp hl
    unfold lastAssistantTurn
    rw [hl', List.filter_append]
    simp [hr]

theorem response_spoken_and_replay_last_turn_witness :
    jsTrim ({ initialState with input := "hello" } : ChatState).input ≠ "" ∧
    ({ initialState with input := "hello" } : ChatState).isSpeaking = false ∧
    ({ initialState with input := "hello" } : ChatState).messages.getLast?
      = some greetingTurn ∧
    greetingTurn.role = "assistant" ∧
    ((handleSubmit { initialState with input := "hello" }
        (Except.ok "ok")).1.synthQueue = [] ++ ["ok"] ∧
     (handleSubmit { initialState with input := "hello" }
        (Except.ok "ok")).1.isSpeaking = true ∧
     (replayClick { initialState with input := "hello" }).synthQueue
      = [] ++ [greetingTurn.content] ∧
     (replayClick { initialState with input := "hello" }).isSpeaking = true ∧
     lastAssistantTurn ({ initialState with input := "hello" } : ChatState).messages
      = some greetingTurn) :=
  ⟨by decide, rfl, rfl, rfl,
   response_spoken_and_replay_last_turn { initialState with input := "hello" }
     "ok" greetingTurn (by decide) rfl rfl rfl⟩

/-- Every event step only appends to the transcript (or leaves it
unchanged): the transcript is append-only. -/
theorem step_messages_append (s : ChatState) (e : Event) :
    ∃ ts, (step s e).messages = s.messages ++ ts := by
  cases e with
  | setInput t => exact ⟨[], by simp [step]⟩
  | submitStartEv =>
      by_cases h : jsTrim s.input = ""
      · exact ⟨[], by simp [step, submitStart, h]⟩
      · exact ⟨[({ role := "user", content := s.input } : Turn)],
          by simp [step, submitStart, h]⟩
  | submitFinishEv r =>
      cases hT : s.isTyping with
      | false => exact ⟨[], by simp [step, hT]⟩
      | true =>
          cases r with
          | ok resp =>
              exact ⟨[({ role := "assistant", content := resp } : Turn)],
                by simp [step, hT, submitFinish, speakResponse]⟩
          | error e =>
              exact ⟨[({ role := "assistant", content := fallbackErrorText } : Turn)],
                by simp [step, hT, submitFinish]⟩
  | startListenEv => exact ⟨[], by simp [step, startListening]⟩
  | stopListenEv => exact ⟨[], by simp [step, stopListening]⟩
  | recognitionResultEv rs => exact ⟨[], by simp [step, onRecognitionResult]⟩
  | recognitionErrorEv =>
      exact ⟨[], by simp [step, onRecognitionError, stopListening]⟩
  | replayClickEv =>
      refine ⟨[], ?_⟩
      cases hsp : s.isSpeaking with
      | true => simp [step, replayClick, hsp, stopSpeaking]
      | false =>
          cases hl : s.messages.getLast? <;>
            simp [step, replayClick, hsp, hl, speakResponse]
  | utteranceEndEv =>
      refine ⟨[], ?_⟩
      cases hq : s.synthQueue <;> simp [step, utteranceEnd, hq]

/-- Running any event list from a state whose transcript is non-empty and
starts with the greeting preserves both facts. -/
theorem run_greeting_invariant (es : List Event) (s : ChatState)
    (h1 : s.messages ≠ []) (h2 : s.messages.head? = some greetingTurn) :
    (run s es).messages ≠ [] ∧
    (run s es).messages.head? = some greetingTurn := by
  induction es generalizing s with
  | nil => exact ⟨h1, h2⟩
  | cons e es ih =>
      obtain ⟨ts, hts⟩ := step_messages_append s e
      have h1' : (step s e).messages ≠ [] := by
        rw [hts]
        intro hc
        exact h1 (List.append_eq_nil.mp hc).1
      have h2' : (step s e).messages.head? = some greetingTurn := by
        cases hm : s.messages with
        | nil => exact absurd hm h1
        | cons a as =>
            rw [hm] at h2 hts
            simp only [List.head?_cons, Option.some.injEq] at h2
            rw [hts, List.cons_append, List.head?_cons, h2]
      exact ih (step s e) h1' h2'

/-- Every request a single event step issues has the fixed
system-instruction history. -/
theorem stepRequests_history (s : ChatState) (e : Event)
    (req : OutboundRequest) (hreq : req ∈ stepRequests s e) :
    req.history = [({ role := "user", text := FIXED_PROMPT } : RequestMessage)] := by
  cases e with
  | submitStartEv =>
      by_cases h : jsTrim s.input = ""
      · simp [stepRequests, submitStart, h] at hreq
      · simp [stepRequests, submitStart, h] at hreq
        rw [hreq]
        rfl
  | setInput t => simp [stepRequests] at hreq
  | submitFinishEv r => simp [stepRequests] at hreq
  | startListenEv => simp [stepRequests] at hreq
  | stopListenEv => simp [stepRequests] at hreq
  | recognitionResultEv rs => simp [stepRequests] at hreq
  | recognitionErrorEv => simp [stepRequests] at hreq
  | replayClickEv => simp [stepRequests] at hreq
  | utteranceEndEv => simp [stepRequests] at hreq

/-- Every request issued along any run has the fixed system-instruction
history. -/
theorem runRequests_history (es : List Event) (s : ChatState)
    (req : OutboundRequest) (hreq : req ∈ runRequests s es) :
    req.history = [({ role := "user", text := FIXED_PROMPT } : RequestMessage)] := by
  induction es generalizing s with
  | nil => simp [runRequests] at hreq
  | cons e es ih =>
      simp only [runRequests, List.mem_append] at hreq
      rcases hreq with h | h
      · exact stepRequests_history s e req h
      · exact ih (step s e) h

/-- C4: in every state reachable from session creation the transcript is
non-empty and its first Turn is the synthetic assistant greeting, and
every outbound request issued along the way carries exactly the fixed
system-instruction history — the greeting text is never among the texts
sent as prior context. -/
theorem transcript_greeting_invariant (es : List Event) :
    (run initialState es).messages ≠ [] ∧
    (run initialState es).messages.head? = some greetingTurn ∧
    ∀ req ∈ runRequests initialState es,
      req.history = [({ role := "user", text := FIXED_PROMPT } : RequestMessage)] ∧
      ((req.history.map RequestMessage.text).contains greetingTurn.content) = false := by
  obtain ⟨h1, h2⟩ :=
    run_greeting_invariant es initialState (by decide) (by decide)
  refine ⟨h1, h2, ?_⟩
  intro req hreq
  have hh := runRequests_history es initialState req hreq
  refine ⟨hh, ?_⟩
  rw [hh]
  decide

set_option maxRecDepth 8192 in
theorem transcript_greeting_invariant_witness :
    (run initialState [Event.setInput "hey", Event.submitStartEv]).messages.head?
      = some greetingTurn ∧
    runChatRequest "hey"
      ∈ runRequests initialState [Event.setInput "hey", Event.submitStartEv] ∧
    ((runChatRequest "hey").history
      = [({ role := "user", text := FIXED_PROMPT } : RequestMessage)] ∧
     (((runChatRequest "hey").history.map RequestMessage.text).contains
        greetingTurn.content) = false) :=
  ⟨(transcript_greeting_invariant
      [Event.setInput "hey", Event.submitStartEv]).2.1,
   by decide,
   (transcript_greeting_invariant
      [Event.setInput "hey", Event.submitStartEv]).2.2
     (runChatRequest "hey") (by decide)⟩
